import Mathlib

/-!
Verification of the CBI remote-build orchestration core of skaffold
(`pkg/skaffold/cbi/cbi.go`, `pkg/skaffold/build/cbi.go`,
`pkg/skaffold/schema/v1alpha2/config.go`, the `TempNginx` staging
resource, and the polling loops built on `wait.PollImmediate`).

The Go code is shallowly embedded: fallible external calls (Kubernetes
API calls, tar packaging, `kubectl` invocations, yaml codec calls) are
parameters of type `Except String _` supplied through environment
records, pure data manipulation (template fulfillment, the version scan
over the yaml map slice, the poll conditions) is translated directly,
and Go's `defer` is modelled by appending the deferred call's event to
the trace on every exit path after the `defer` statement executes.
-/

namespace Skaffold

/-- `cbiv1alpha1.SchemeGroupVersion.String()`. -/
def cbiSchemeGroupVersion : String := "cbi.containerbuilding.github.io/v1alpha1"

/-- `cbiv1alpha1.LanguageKindDockerfile`. -/
def languageKindDockerfile : String := "Dockerfile"

/-- `cbiv1alpha1.ContextKindHTTP`. -/
def contextKindHTTP : String := "HTTP"

/-- `cbiv1alpha1.HTTP`: the HTTP context source (`spec.context.http`). -/
structure HTTP where
  url : String
deriving DecidableEq, Repr

/-- `spec.context`: context source kind plus the HTTP location. -/
structure ContextSpec where
  kind : String
  http : HTTP
deriving DecidableEq, Repr

/-- `spec.registry.secretRef`: caller-supplied registry secret reference. -/
structure SecretRef where
  name : String
deriving DecidableEq, Repr

/-- `spec.registry`: push target, push flag and secret reference. -/
structure Registry where
  target : String
  push : Bool
  secretRef : SecretRef
deriving DecidableEq, Repr

/-- `spec.language`: build instruction language. -/
structure Language where
  kind : String
deriving DecidableEq, Repr

/-- `spec` of a CBI BuildJob. -/
structure BuildJobSpec where
  language : Language
  registry : Registry
  context : ContextSpec
deriving DecidableEq, Repr

/-- `metadata` of a CBI BuildJob (the core only touches `name`). -/
structure ObjectMeta where
  name : String
deriving DecidableEq, Repr

/-- `cbiv1alpha1.BuildJob`, restricted to the logical fields the core
reads or writes (spec section 6). -/
structure BuildJob where
  apiVersion : String
  kind : String
  objectMeta : ObjectMeta
  spec : BuildJobSpec
deriving DecidableEq, Repr

/-- The all-empty BuildJob template. -/
def emptyBuildJob : BuildJob where
  apiVersion := ""
  kind := ""
  objectMeta := { name := "" }
  spec :=
    { language := { kind := "" }
      registry := { target := "", push := false, secretRef := { name := "" } }
      context := { kind := "", http := { url := "" } } }

/-- Decimal digit characters, used to embed Go's `fmt.Sprintf("%d", n)`. -/
def decimalDigitChar : Nat → Char
  | 0 => '0'
  | 1 => '1'
  | 2 => '2'
  | 3 => '3'
  | 4 => '4'
  | 5 => '5'
  | 6 => '6'
  | 7 => '7'
  | 8 => '8'
  | 9 => '9'
  | _ => '*'

/-- Decimal rendering of a natural number (Go's `%d`). -/
def decimalString (n : Nat) : String :=
  if n = 0 then "0"
  else String.mk (((Nat.digits 10 n).map decimalDigitChar).reverse)

/-- `fmt.Sprintf("skaffold-%d-%s", time.Now().UnixNano(), util.RandomID()[0:1])`:
the generated BuildJob name. The nondeterministic inputs (clock reading and
random ID bytes) are parameters; `[0:1]` is `List.take 1` on the ID's bytes. -/
def generatedBuildJobName (nowUnixNano : Nat) (randID : List Char) : String :=
  "skaffold-" ++ decimalString nowUnixNano ++ "-" ++ String.mk (randID.take 1)

/-- `cbiBuildJobTemplateV1Alpha1.Fulfill`: fill defaults into empty fields,
then unconditionally override the invocation-specific fields. The source's
two assignments `Context.HTTP = HTTP{}` followed by `Context.HTTP.URL = url`
collapse to one record update because `HTTP` has the single field `url`. -/
def fulfillV1Alpha1 (bj : BuildJob) (imageName httpContextURL : String)
    (nowUnixNano : Nat) (randID : List Char) : BuildJob :=
  -- fulfill if empty
  let bj := if bj.apiVersion = "" then { bj with apiVersion := cbiSchemeGroupVersion } else bj
  let bj := if bj.kind = "" then { bj with kind := "BuildJob" } else bj
  let bj :=
    if bj.objectMeta.name = "" then
      { bj with objectMeta.name := generatedBuildJobName nowUnixNano randID }
    else bj
  let bj :=
    if bj.spec.language.kind = "" then
      { bj with spec.language.kind := languageKindDockerfile }
    else bj
  -- override
  { bj with
      spec.registry.target := imageName
      spec.registry.push := true
      spec.context.kind := contextKindHTTP
      spec.context.http := { url := httpContextURL } }

/-- A yaml value as seen by `CBIBuild.GetBuildJobTemplate`'s scan: the code
only distinguishes string values from everything else (via Go type
assertions), so non-string values are a single constructor. -/
inductive YamlVal where
  | str (s : String)
  | nonstr
deriving DecidableEq, Repr

/-- `yaml.MapSlice`: an ordered list of key/value pairs. -/
abbrev MapSlice := List (YamlVal × YamlVal)

/-- Go's `%q` formatting of a string (quoted). -/
def quoted (s : String) : String := "\"" ++ s ++ "\""

/-- The version-scan loop of `CBIBuild.GetBuildJobTemplate`: skip entries
whose key is not the string `"apiVersion"`; at the first such entry, a
non-string value is an error (the Go message interpolates the zero-value
string left by the failed type assertion, hence the bare suffix), the
supported version string jumps to the `v1alpha1` label (`ok`), any other
string is an error. A scan that finds no entry falls through to the
`v1alpha1` label. -/
def scanBuildJobAPIVersion : MapSlice → Except String Unit
  | [] => .ok ()
  | (k, v) :: rest =>
    match k with
    | .str ks =>
      if ks = "apiVersion" then
        match v with
        | .str vs =>
          if vs = cbiSchemeGroupVersion then .ok ()
          else .error ("expected " ++ quoted cbiSchemeGroupVersion ++ ", got " ++ quoted vs)
        | .nonstr => .error "got non-string apiVersion: "
      else scanBuildJobAPIVersion rest
    | .nonstr => scanBuildJobAPIVersion rest

/-- `cbiBuildJobTemplateV1Alpha1`: the v1alpha1 template wrapping its
BuildJob. -/
structure CBIBuildJobTemplateV1Alpha1 where
  bj : BuildJob
deriving DecidableEq, Repr

/-- `cbiBuildJobTemplateV1Alpha1.APIVersion`: always the v1alpha1 version. -/
def CBIBuildJobTemplateV1Alpha1.APIVersion (_ : CBIBuildJobTemplateV1Alpha1) : String :=
  cbiSchemeGroupVersion

/-- `CBIBuild.GetBuildJobTemplate`: marshal the map slice, run the version
scan, then strictly unmarshal into a v1alpha1 BuildJob. The yaml codec is
an external library, so `marshal` and `unmarshalStrict` are parameters;
the source calls them in exactly this order (marshal before the scan,
unmarshal after it). -/
def GetBuildJobTemplate (marshal : MapSlice → Except String String)
    (unmarshalStrict : String → Except String BuildJob)
    (m : MapSlice) : Except String CBIBuildJobTemplateV1Alpha1 :=
  match marshal m with
  | .error e => .error e
  | .ok b =>
    match scanBuildJobAPIVersion m with
    | .error e => .error e
    | .ok _ =>
      match unmarshalStrict b with
      | .error e => .error e
      | .ok bj => .ok { bj := bj }

/-- `wait.ErrWaitTimeout.Error()`. -/
def errWaitTimeout : String := "timed out waiting for the condition"

/-- `wait.PollImmediate(interval, timeout, cond)`: run the condition at
poll indices `i, i+1, ...` with a budget of `fuel` attempts (the ceiling
divided by the interval). A condition error aborts with that error, `true`
resolves success, `false` consumes one attempt; an exhausted budget is the
wait package's timeout error. -/
def pollImmediate (cond : Nat → Except String Bool) : Nat → Nat → Except String Unit
  | _, 0 => .error errWaitTimeout
  | i, fuel + 1 =>
    match cond i with
    | .error e => .error e
    | .ok true => .ok ()
    | .ok false => pollImmediate cond (i + 1) fuel

/-- Readiness-poll attempt budget: 3 minutes at 500 ms per poll. -/
def readinessMaxPolls : Nat := (3 * 60 * 1000) / 500

/-- Completion-poll attempt budget: 60 minutes at 500 ms per poll. -/
def completionMaxPolls : Nat := (60 * 60 * 1000) / 500

/-- `batchv1.JobStatus`, restricted to the fields `waitJobCompletion`
reads: the completion timestamp and the failure count. -/
structure JobStatus where
  completionTime : Option Nat
  failed : Nat
deriving DecidableEq, Repr

/-- Rendering of a job status used in the `job failed: %+v` message (the
embedded final status snapshot). -/
def jobStatusString (s : JobStatus) : String :=
  "completionTime="
    ++ (match s.completionTime with
        | none => "nil"
        | some t => decimalString t)
    ++ " failed=" ++ decimalString s.failed

/-- The poll condition of `waitJobCompletion`: a fetch error becomes
`not found: <jobName>`; a status with a completion timestamp resolves
`true` on zero failures and the `job failed` error otherwise; no
completion timestamp keeps polling. -/
def jobCompletionCond (jobName : String) (fetch : Nat → Except String JobStatus)
    (i : Nat) : Except String Bool :=
  match fetch i with
  | .error _ => .error ("not found: " ++ jobName)
  | .ok job =>
    match job.completionTime with
    | some _ =>
      if job.failed = 0 then .ok true
      else .error ("job failed: " ++ jobStatusString job)
    | none => .ok false

/-- `waitJobCompletion`: the completion poll. -/
def waitJobCompletion (jobName : String) (fetch : Nat → Except String JobStatus) :
    Except String Unit :=
  pollImmediate (jobCompletionCond jobName fetch) 0 completionMaxPolls

/-- The readiness poll condition inside `runCBIBuildV1Alpha1`: each fetch
yields the BuildJob's `Status.Job` field; a fetch error becomes the
`not found` error, an empty field keeps polling, a non-empty field
resolves readiness. -/
def buildJobReadyCond (bjName : String) (fetch : Nat → Except String String)
    (i : Nat) : Except String Bool :=
  match fetch i with
  | .error _ => .error ("not found: " ++ bjName)
  | .ok statusJob =>
    if statusJob = "" then .ok false else .ok true

/-- The readiness poll of `runCBIBuildV1Alpha1` (wait for `Status.Job`
to be filled in). -/
def waitBuildJobReady (bjName : String) (fetch : Nat → Except String String) :
    Except String Unit :=
  pollImmediate (buildJobReadyCond bjName fetch) 0 readinessMaxPolls

/-- `waitJobPodReady`: the source is a fixed 10-second sleep followed by
`return nil` (marked FIXME there), so it always succeeds. -/
def waitJobPodReady : Except String Unit := .ok ()

/-- Observable side effects of one `RunCBIBuild` invocation; `nginxDelete`
records the (discarded) result of the deferred `TempNginx.Delete` call. -/
inductive CBIEvent where
  | createTempFile
  | nginxCreate
  | packageContext
  | copyContext
  | fulfillTemplate
  | createBuildJob
  | startLogFollower
  | killLogFollower
  | deleteBuildJob
  | removeTempFile
  | nginxDelete (result : Except String Unit)

/-- Discriminator for the staging-resource teardown event. -/
def CBIEvent.isNginxDelete : CBIEvent → Bool
  | .nginxDelete _ => true
  | _ => false

/-- `errgroup.Wait` over the two concurrent tasks (nginx creation and
context packaging): `nil` only when both succeed; otherwise one of the
errors. The real errgroup returns whichever error occurred first in real
time; this determinization reports the nginx-creation error when both
fail, which is indistinguishable for every property proved here (they
only depend on success versus failure). -/
def egWait (nginxCreate packageContext : Except String Unit) : Except String Unit :=
  match nginxCreate with
  | .error e => .error e
  | .ok _ => packageContext

/-- Outcomes of the external calls made by `runCBIBuildV1Alpha1`:
BuildJob creation, the per-poll readiness fetches of `Status.Job`, the
start of the `kubectl logs --follow` process, and the per-poll completion
fetches of the batch job status. -/
structure RunV1Alpha1Env where
  createBuildJob : Except String Unit
  bjName : String
  readyFetch : Nat → Except String String
  startLog : Except String Unit
  jobName : String
  completionFetch : Nat → Except String JobStatus

/-- `runCBIBuildV1Alpha1`: create the BuildJob (deferring its deletion),
wait for readiness, wait for the job pod, start the log follower
(deferring its kill), and wait for completion. Deferred calls append
their events on every exit path after the corresponding `defer`
executes, in last-in-first-out order. -/
def runCBIBuildV1Alpha1 (env : RunV1Alpha1Env) : Except String Unit × List CBIEvent :=
  match env.createBuildJob with
  | .error e => (.error e, [.createBuildJob])
  | .ok _ =>
    match waitBuildJobReady env.bjName env.readyFetch with
    | .error e => (.error e, [.createBuildJob, .deleteBuildJob])
    | .ok _ =>
      match waitJobPodReady with
      | .error e => (.error e, [.createBuildJob, .deleteBuildJob])
      | .ok _ =>
        match env.startLog with
        | .error e => (.error e, [.createBuildJob, .startLogFollower, .deleteBuildJob])
        | .ok _ =>
          match waitJobCompletion env.jobName env.completionFetch with
          | .error e =>
            (.error e, [.createBuildJob, .startLogFollower, .killLogFollower, .deleteBuildJob])
          | .ok _ =>
            (.ok (), [.createBuildJob, .startLogFollower, .killLogFollower, .deleteBuildJob])

/-- Outcomes of the external calls made by `RunCBIBuild`, in source
order: the template's declared API version, Kubernetes client creation,
temp-file creation, the two concurrent tasks, the `kubectl cp` upload,
the template's `Fulfill` call, the `*cbiv1alpha1.BuildJob` type
assertion, CBI client creation, the inner v1alpha1 run, the artifact's
image name with the random initial tag, and the (ignored) result of the
deferred staging teardown. -/
structure RunEnv where
  templateAPIVersion : String
  newK8sClient : Except String Unit
  tempFile : Except String Unit
  nginxCreate : Except String Unit
  packageContext : Except String Unit
  copyContext : Except String Unit
  fulfill : Except String Unit
  buildJobIsV1Alpha1 : Bool
  newCBIClient : Except String Unit
  inner : RunV1Alpha1Env
  imageName : String
  initialTag : String
  deleteNginx : Except String Unit

/-- The body of `RunCBIBuild` after the staging resource's handle is
constructed (everything covered by `defer nginx.Delete(ctx)`): temp file,
concurrent create+package, upload, fulfill, type assertion, CBI client,
inner run. `defer os.Remove(ctxTar.Name())` appends `removeTempFile` on
every exit after temp-file creation succeeds. -/
def runCBIBuildBody (env : RunEnv) : Except String String × List CBIEvent :=
  match env.tempFile with
  | .error e => (.error e, [.createTempFile])
  | .ok _ =>
    match egWait env.nginxCreate env.packageContext with
    | .error e =>
      (.error e, [.createTempFile, .nginxCreate, .packageContext, .removeTempFile])
    | .ok _ =>
      match env.copyContext with
      | .error e =>
        (.error e,
         [.createTempFile, .nginxCreate, .packageContext, .copyContext, .removeTempFile])
      | .ok _ =>
        match env.fulfill with
        | .error e =>
          (.error e,
           [.createTempFile, .nginxCreate, .packageContext, .copyContext,
            .fulfillTemplate, .removeTempFile])
        | .ok _ =>
          if env.buildJobIsV1Alpha1 then
            match env.newCBIClient with
            | .error e =>
              (.error e,
               [.createTempFile, .nginxCreate, .packageContext, .copyContext,
                .fulfillTemplate, .removeTempFile])
            | .ok _ =>
              match runCBIBuildV1Alpha1 env.inner with
              | (.error e, evs) =>
                (.error e,
                 [.createTempFile, .nginxCreate, .packageContext, .copyContext,
                  .fulfillTemplate] ++ evs ++ [.removeTempFile])
              | (.ok _, evs) =>
                (.ok (env.imageName ++ ":" ++ env.initialTag),
                 [.createTempFile, .nginxCreate, .packageContext, .copyContext,
                  .fulfillTemplate] ++ evs ++ [.removeTempFile])
          else
            (.error "expected *cbiv1alpha1.BuildJob",
             [.createTempFile, .nginxCreate, .packageContext, .copyContext,
              .fulfillTemplate, .removeTempFile])

/-- `RunCBIBuild`: the per-artifact orchestrator. The API-version check
and Kubernetes client creation precede `NewTempNginx`, so their failure
paths produce no teardown event; once the handle exists,
`defer nginx.Delete(ctx)` appends exactly one `nginxDelete` event —
carrying the teardown's own result, which the source discards — after the
body's events on every exit. -/
def RunCBIBuild (env : RunEnv) : Except String String × List CBIEvent :=
  if env.templateAPIVersion = cbiSchemeGroupVersion then
    match env.newK8sClient with
    | .error e => (.error e, [])
    | .ok _ =>
      let r := runCBIBuildBody env
      (r.1, r.2 ++ [.nginxDelete env.deleteNginx])
  else
    (.error ("unsupported CBI API version: " ++ quoted env.templateAPIVersion), [])

/-- Teardown sub-steps of the staging resource. -/
inductive TeardownStep where
  | service
  | pod
deriving DecidableEq, Repr

/-- `TempNginx.Delete`: delete the service, then the pod; the first error
is returned immediately. The trace records which deletions were
attempted, in order. -/
def TempNginx.Delete (svcDelete podDelete : Except String Unit) :
    Except String Unit × List TeardownStep :=
  match svcDelete with
  | .error e => (.error e, [.service])
  | .ok _ =>
    match podDelete with
    | .error e => (.error e, [.service, .pod])
    | .ok _ => (.ok (), [.service, .pod])

/-- `v1alpha2.Artifact`, restricted to the fields the build loop reads. -/
structure Artifact where
  imageName : String
  workspace : String
deriving DecidableEq, Repr

/-- Outcomes of the four fallible per-artifact steps in
`CBIBuilder.Build`: `cbi.RunCBIBuild`, `docker.RemoteDigest`,
`tagger.GenerateFullyQualifiedImageName` and `docker.AddTag`. -/
structure ArtifactOutcome where
  runBuild : Except String String
  remoteDigest : Except String String
  generateTag : Except String String
  addTag : Except String Unit

/-- One entry of `BuildResult.Builds`. -/
structure BuildEntry where
  imageName : String
  tag : String
  artifact : Artifact
deriving DecidableEq, Repr

/-- The body of one iteration of `CBIBuilder.Build`'s loop: each step's
error is wrapped with its operation name, mirroring `errors.Wrap`. -/
def buildArtifact (a : Artifact) (o : ArtifactOutcome) : Except String BuildEntry :=
  match o.runBuild with
  | .error e => .error ("running cbi build for " ++ a.imageName ++ ": " ++ e)
  | .ok _initialTag =>
    match o.remoteDigest with
    | .error e => .error ("getting digest: " ++ e)
    | .ok _digest =>
      match o.generateTag with
      | .error e => .error ("generating tag: " ++ e)
      | .ok tag =>
        match o.addTag with
        | .error e => .error ("tagging image: " ++ e)
        | .ok _ => .ok { imageName := a.imageName, tag := tag, artifact := a }

/-- The artifact loop of `CBIBuilder.Build`. The result mirrors Go's two
return values `(*BuildResult, error)` — on error the accumulated
`res.Builds` is dropped and `nil` is returned — and the third component
records the image names of the artifacts for which `RunCBIBuild` was
invoked, in order. -/
def buildLoop : List (Artifact × ArtifactOutcome) → List BuildEntry →
    (Option (List BuildEntry) × Option String) × List String
  | [], acc => ((some acc, none), [])
  | (a, o) :: rest, acc =>
    match buildArtifact a o with
    | .error e => ((none, some e), [a.imageName])
    | .ok entry =>
      let r := buildLoop rest (acc ++ [entry])
      (r.1, a.imageName :: r.2)

/-- `CBIBuilder.Build`: resolve the template and client config, then run
the artifact loop with an empty accumulator. -/
def CBIBuilder.Build (getTemplate : Except String Unit) (clientConfig : Except String Unit)
    (artifacts : List (Artifact × ArtifactOutcome)) :
    (Option (List BuildEntry) × Option String) × List String :=
  match getTemplate with
  | .error e => ((none, some e), [])
  | .ok _ =>
    match clientConfig with
    | .error e => ((none, some e), [])
    | .ok _ => buildLoop artifacts []

/-- No entry of the map slice has the string key `"apiVersion"`. -/
def noAPIVersionKey (m : MapSlice) : Prop :=
  ∀ kv ∈ m, kv.1 ≠ YamlVal.str "apiVersion"

/-- All four per-artifact steps of the build loop succeed. -/
def artifactStepsSucceed (p : Artifact × ArtifactOutcome) : Prop :=
  ∃ entry, buildArtifact p.1 p.2 = .ok entry

/-! ## Poll-loop lemmas -/

theorem pollImmediate_first_true (cond : Nat → Except String Bool) (k : Nat) :
    ∀ i n, k < n → (∀ m < k, cond (i + m) = .ok false) → cond (i + k) = .ok true →
    pollImmediate cond i n = .ok () := by
  induction k with
  | zero =>
    intro i n hn hprev hit
    cases n with
    | zero => omega
    | succ n =>
      rw [Nat.add_zero] at hit
      simp [pollImmediate, hit]
  | succ k ih =>
    intro i n hn hprev hit
    cases n with
    | zero => omega
    | succ n =>
      have h0 : cond i = .ok false := by have := hprev 0 (by omega); simpa using this
      simp only [pollImmediate, h0]
      refine ih (i + 1) n (by omega) (fun m hm => ?_) ?_
      · have := hprev (m + 1) (by omega)
        rwa [show i + 1 + m = i + (m + 1) by omega]
      · rwa [show i + 1 + k = i + (k + 1) by omega]

theorem pollImmediate_first_error (cond : Nat → Except String Bool) (k : Nat) :
    ∀ i n e, k < n → (∀ m < k, cond (i + m) = .ok false) → cond (i + k) = .error e →
    pollImmediate cond i n = .error e := by
  induction k with
  | zero =>
    intro i n e hn hprev hit
    cases n with
    | zero => omega
    | succ n =>
      rw [Nat.add_zero] at hit
      simp [pollImmediate, hit]
  | succ k ih =>
    intro i n e hn hprev hit
    cases n with
    | zero => omega
    | succ n =>
      have h0 : cond i = .ok false := by have := hprev 0 (by omega); simpa using this
      simp only [pollImmediate, h0]
      refine ih (i + 1) n e (by omega) (fun m hm => ?_) ?_
      · have := hprev (m + 1) (by omega)
        rwa [show i + 1 + m = i + (m + 1) by omega]
      · rwa [show i + 1 + k = i + (k + 1) by omega]

theorem pollImmediate_timeout (cond : Nat → Except String Bool) :
    ∀ n i, (∀ m < n, cond (i + m) = .ok false) →
    pollImmediate cond i n = .error errWaitTimeout := by
  intro n
  induction n with
  | zero => intro i _; rfl
  | succ n ih =>
    intro i hall
    have h0 : cond i = .ok false := by have := hall 0 (by omega); simpa using this
    simp only [pollImmediate, h0]
    refine ih (i + 1) (fun m hm => ?_)
    have := hall (m + 1) (by omega)
    rwa [show i + 1 + m = i + (m + 1) by omega]

theorem pollImmediate_ok_iff (cond : Nat → Except String Bool) :
    ∀ n i, pollImmediate cond i n = .ok () ↔
      ∃ k, k < n ∧ cond (i + k) = .ok true ∧ ∀ m < k, cond (i + m) = .ok false := by
  intro n
  induction n with
  | zero =>
    intro i
    constructor
    · intro h; simp [pollImmediate, errWaitTimeout] at h
    · rintro ⟨k, hk, -, -⟩; omega
  | succ n ih =>
    intro i
    constructor
    · intro h
      rcases hc : cond i with e | b
      · simp [pollImmediate, hc] at h
      · cases b with
        | true => exact ⟨0, by omega, by simpa using hc, by omega⟩
        | false =>
          simp only [pollImmediate, hc] at h
          obtain ⟨k, hk, hit, hprev⟩ := (ih (i + 1)).mp h
          refine ⟨k + 1, by omega, ?_, ?_⟩
          · rwa [show i + (k + 1) = i + 1 + k by omega]
          · intro m hm
            cases m with
            | zero => simpa using hc
            | succ m =>
              have := hprev m (by omega)
              rwa [show i + 1 + m = i + (m + 1) by omega] at this
    · rintro ⟨k, hk, hit, hprev⟩
      exact pollImmediate_first_true cond k i (n + 1) hk hprev hit

/-! ## Decimal-rendering lemmas -/

theorem decimalDigitChar_injOn {d₁ d₂ : Nat} (h₁ : d₁ < 10) (h₂ : d₂ < 10)
    (h : decimalDigitChar d₁ = decimalDigitChar d₂) : d₁ = d₂ := by
  interval_cases d₁ <;> interval_cases d₂ <;> revert h <;> decide

theorem map_decimalDigitChar_inj :
    ∀ l₁ l₂ : List Nat, (∀ d ∈ l₁, d < 10) → (∀ d ∈ l₂, d < 10) →
      l₁.map decimalDigitChar = l₂.map decimalDigitChar → l₁ = l₂
  | [], [], _, _, _ => rfl
  | [], _ :: _, _, _, h => by simp at h
  | _ :: _, [], _, _, h => by simp at h
  | a :: l₁, b :: l₂, h₁, h₂, h => by
    simp only [List.map_cons, List.cons.injEq] at h
    have ha := decimalDigitChar_injOn (h₁ a (by simp)) (h₂ b (by simp)) h.1
    have hl := map_decimalDigitChar_inj l₁ l₂ (fun d hd => h₁ d (by simp [hd]))
      (fun d hd => h₂ d (by simp [hd])) h.2
    simp [ha, hl]

theorem decimalString_ne_empty (n : Nat) : decimalString n ≠ "" := by
  unfold decimalString
  split
  · decide
  · intro h
    have hd : Nat.digits 10 n ≠ [] := Nat.digits_ne_nil_iff_ne_zero.mpr (by assumption)
    have : (String.mk (((Nat.digits 10 n).map decimalDigitChar).reverse)).data = ("" : String).data :=
      congrArg String.data h
    simp at this
    exact hd this

theorem decimalString_ne_zero_str {n : Nat} (hn : n ≠ 0) : decimalString n ≠ "0" := by
  intro h
  rw [decimalString, if_neg hn] at h
  have h' : String.mk (((Nat.digits 10 n).map decimalDigitChar).reverse) = String.mk ['0'] := h
  injection h' with hdata
  have hmap : (Nat.digits 10 n).map decimalDigitChar = ['0'] := by
    have := congrArg List.reverse hdata
    simpa using this
  rcases hds : Nat.digits 10 n with - | ⟨d, rest⟩
  · rw [hds] at hmap; simp at hmap
  · rw [hds] at hmap
    simp only [List.map_cons] at hmap
    have hd : decimalDigitChar d = '0' := (List.cons.inj hmap).1
    have ht : rest.map decimalDigitChar = [] := (List.cons.inj hmap).2
    have hrest : rest = [] := by
      cases rest with
      | nil => rfl
      | cons x xs => simp at ht
    have hd10 : d < 10 := Nat.digits_lt_base (by omega) (by rw [hds]; simp)
    have hd0 : d = 0 := decimalDigitChar_injOn hd10 (by omega) (by rw [hd]; rfl)
    have hofd : n = Nat.ofDigits 10 (Nat.digits 10 n) := (Nat.ofDigits_digits 10 n).symm
    rw [hds, hrest, hd0] at hofd
    simp [Nat.ofDigits_cons, Nat.ofDigits_nil] at hofd
    exact hn hofd

theorem decimalString_inj : ∀ {m n : Nat}, decimalString m = decimalString n → m = n := by
  intro m n h
  by_cases hm : m = 0 <;> by_cases hn : n = 0
  · omega
  · exfalso
    have h0 : decimalString m = "0" := by rw [decimalString, if_pos hm]
    exact decimalString_ne_zero_str hn (h.symm.trans h0)
  · exfalso
    have h0 : decimalString n = "0" := by rw [decimalString, if_pos hn]
    exact decimalString_ne_zero_str hm (h.trans h0)
  · rw [decimalString, if_neg hm, decimalString, if_neg hn] at h
    have h' : String.mk (((Nat.digits 10 m).map decimalDigitChar).reverse) =
        String.mk (((Nat.digits 10 n).map decimalDigitChar).reverse) := h
    injection h' with hdata
    have hmap : (Nat.digits 10 m).map decimalDigitChar =
        (Nat.digits 10 n).map decimalDigitChar := by
      have := congrArg List.reverse hdata
      simpa using this
    have := map_decimalDigitChar_inj _ _
      (fun d hd => Nat.digits_lt_base (by omega) hd)
      (fun d hd => Nat.digits_lt_base (by omega) hd) hmap
    exact Nat.digits_inj_iff.mp this

theorem generatedBuildJobName_ne_empty (n : Nat) (r : List Char) :
    generatedBuildJobName n r ≠ "" := by
  intro h
  have hd : (("skaffold-".data ++ (decimalString n).data) ++ "-".data) ++ r.take 1 =
      ([] : List Char) := congrArg String.data h
  rcases List.append_eq_nil.mp hd with ⟨h1, -⟩
  rcases List.append_eq_nil.mp h1 with ⟨h2, -⟩
  rcases List.append_eq_nil.mp h2 with ⟨h3, -⟩
  revert h3
  decide

theorem generatedBuildJobName_inj {n₁ n₂ : Nat} {r₁ r₂ : List Char}
    (h₁ : r₁ ≠ []) (h₂ : r₂ ≠ [])
    (h : generatedBuildJobName n₁ r₁ = generatedBuildJobName n₂ r₂) : n₁ = n₂ := by
  have hdata : "skaffold-".data ++ ((decimalString n₁).data ++ ("-".data ++ r₁.take 1)) =
      "skaffold-".data ++ ((decimalString n₂).data ++ ("-".data ++ r₂.take 1)) := by
    have := congrArg String.data h
    simpa [generatedBuildJobName, List.append_assoc] using this
  have hBD : (decimalString n₁).data ++ ("-".data ++ r₁.take 1) =
      (decimalString n₂).data ++ ("-".data ++ r₂.take 1) :=
    List.append_cancel_left hdata
  have hl₁ : (r₁.take 1).length = 1 := by
    have : 0 < r₁.length := List.length_pos.mpr h₁
    simp [List.length_take]
    omega
  have hl₂ : (r₂.take 1).length = 1 := by
    have : 0 < r₂.length := List.length_pos.mpr h₂
    simp [List.length_take]
    omega
  have hsuffix : ("-".data ++ r₁.take 1).length = ("-".data ++ r₂.take 1).length := by
    simp [hl₁, hl₂]
  have hB : (decimalString n₁).data = (decimalString n₂).data :=
    (List.append_inj' hBD hsuffix).1
  exact decimalString_inj (congrArg String.mk hB)

/-! ## Version-scan lemmas -/

theorem scanBuildJobAPIVersion_append {pre : MapSlice} (h : noAPIVersionKey pre)
    (xs : MapSlice) :
    scanBuildJobAPIVersion (pre ++ xs) = scanBuildJobAPIVersion xs := by
  induction pre with
  | nil => rfl
  | cons kv rest ih =>
    obtain ⟨k, v⟩ := kv
    have hk := h (k, v) (by simp)
    have hrest : noAPIVersionKey rest := fun p hp => h p (by simp [hp])
    cases k with
    | str ks =>
      have hne : ¬ks = "apiVersion" := by
        intro he
        exact hk (by rw [he])
      simp only [List.cons_append, scanBuildJobAPIVersion, if_neg hne]
      exact ih hrest
    | nonstr =>
      simp only [List.cons_append, scanBuildJobAPIVersion]
      exact ih hrest

/-! ## Build-loop lemmas -/

theorem buildLoop_first_failure (a : Artifact) (o : ArtifactOutcome)
    (rest : List (Artifact × ArtifactOutcome)) (e : String)
    (hfail : buildArtifact a o = .error e) :
    ∀ (pre : List (Artifact × ArtifactOutcome)) (acc : List BuildEntry),
      (∀ p ∈ pre, artifactStepsSucceed p) →
      buildLoop (pre ++ (a, o) :: rest) acc =
        ((none, some e), pre.map (fun p => p.1.imageName) ++ [a.imageName]) := by
  intro pre
  induction pre with
  | nil =>
    intro acc _
    simp [buildLoop, hfail]
  | cons p pre ih =>
    intro acc hpre
    obtain ⟨entry, hok⟩ := hpre p (by simp)
    obtain ⟨pa, po⟩ := p
    simp only [List.cons_append, buildLoop, hok, List.append_eq]
    rw [ih (acc ++ [entry]) (fun q hq => hpre q (by simp [hq]))]
    simp

/-! ## Trace-counting lemmas -/

theorem runCBIBuildV1Alpha1_no_nginxDelete (env : RunV1Alpha1Env) :
    (runCBIBuildV1Alpha1 env).2.countP CBIEvent.isNginxDelete = 0 := by
  unfold runCBIBuildV1Alpha1
  rcases env.createBuildJob with e | u
  · rfl
  · rcases waitBuildJobReady env.bjName env.readyFetch with e | u'
    · rfl
    · rcases env.startLog with e | u''
      · rfl
      · rcases waitJobCompletion env.jobName env.completionFetch with e | u''' <;> rfl

theorem runCBIBuildBody_no_nginxDelete (env : RunEnv) :
    (runCBIBuildBody env).2.countP CBIEvent.isNginxDelete = 0 := by
  unfold runCBIBuildBody
  have hinner := runCBIBuildV1Alpha1_no_nginxDelete env.inner
  rcases env.tempFile with e | u
  · rfl
  · rcases egWait env.nginxCreate env.packageContext with e | u'
    · rfl
    · rcases env.copyContext with e | u''
      · rfl
      · rcases env.fulfill with e | u'''
        · rfl
        · rcases hb : env.buildJobIsV1Alpha1 with - | -
          · rfl
          · rcases env.newCBIClient with e | u''''
            · rfl
            · rcases hr : runCBIBuildV1Alpha1 env.inner with ⟨res, evs⟩
              rw [hr] at hinner
              simp only at hinner
              rcases res with e | u''''' <;>
                simp [List.countP_append, List.countP_cons, CBIEvent.isNginxDelete, hinner,
                  List.countP_nil]

/-! ## Fulfill shape lemma -/

theorem fulfillV1Alpha1_eq (bj : BuildJob) (i u : String) (n : Nat) (r : List Char) :
    fulfillV1Alpha1 bj i u n r =
      { apiVersion := if bj.apiVersion = "" then cbiSchemeGroupVersion else bj.apiVersion
        kind := if bj.kind = "" then "BuildJob" else bj.kind
        objectMeta :=
          { name :=
              if bj.objectMeta.name = "" then generatedBuildJobName n r
              else bj.objectMeta.name }
        spec :=
          { language :=
              { kind :=
                  if bj.spec.language.kind = "" then languageKindDockerfile
                  else bj.spec.language.kind }
            registry := { target := i, push := true, secretRef := bj.spec.registry.secretRef }
            context := { kind := contextKindHTTP, http := { url := u } } } } := by
  by_cases h1 : bj.apiVersion = "" <;> by_cases h2 : bj.kind = "" <;>
    by_cases h3 : bj.objectMeta.name = "" <;> by_cases h4 : bj.spec.language.kind = "" <;>
    simp [fulfillV1Alpha1, h1, h2, h3, h4]

/-! ## Claim theorems -/

/-- Claim C3: `Fulfill` unconditionally overwrites `spec.registry.target` to
the image name, `spec.registry.push` to `true`, `spec.context.kind` to HTTP
and `spec.context.http.url` to the context URL, for every template,
including one whose registry target, push flag, or context source fields
already hold caller-supplied values. -/
theorem fulfill_overrides_unconditionally (bj : BuildJob) (imageName httpContextURL : String)
    (now : Nat) (randID : List Char) :
    (fulfillV1Alpha1 bj imageName httpContextURL now randID).spec.registry.target = imageName ∧
    (fulfillV1Alpha1 bj imageName httpContextURL now randID).spec.registry.push = true ∧
    (fulfillV1Alpha1 bj imageName httpContextURL now randID).spec.context.kind = contextKindHTTP ∧
    (fulfillV1Alpha1 bj imageName httpContextURL now randID).spec.context.http.url =
      httpContextURL := by
  rw [fulfillV1Alpha1_eq]
  exact ⟨rfl, rfl, rfl, rfl⟩

/-- Claim C9: `Fulfill` leaves `spec.registry.secretRef` — the caller-supplied
field outside the defaulted/overridden set, and the only modelled field other
than apiVersion, kind, metadata.name, spec.language.kind, spec.registry.target,
spec.registry.push and the spec.context fields — unchanged on every template. -/
theorem fulfill_preserves_secretRef (bj : BuildJob) (imageName httpContextURL : String)
    (now : Nat) (randID : List Char) :
    (fulfillV1Alpha1 bj imageName httpContextURL now randID).spec.registry.secretRef =
      bj.spec.registry.secretRef := by
  rw [fulfillV1Alpha1_eq]

/-- Claim C8, counterexample: when the service deletion fails,
`TempNginx.Delete` returns at once and the pod deletion is never attempted,
contradicting the claim that the compute unit's deletion is attempted even
when the endpoint deletion returns an error. -/
theorem tempNginx_delete_skips_pod_on_service_error :
    (TempNginx.Delete (Except.error "boom") (Except.ok ())).2 = [TeardownStep.service] ∧
    TeardownStep.pod ∉ (TempNginx.Delete (Except.error "boom") (Except.ok ())).2 := by
  constructor
  · rfl
  · intro h
    simp [TempNginx.Delete] at h

/-- Claim C8, amended: `Delete` attempts the service deletion first; the pod
deletion is attempted afterwards exactly when the service deletion succeeded,
and a service-deletion error is returned immediately without attempting the
pod deletion. -/
theorem tempNginx_delete_order (svcDelete podDelete : Except String Unit) :
    (TempNginx.Delete svcDelete podDelete).2.head? = some TeardownStep.service ∧
    (TeardownStep.pod ∈ (TempNginx.Delete svcDelete podDelete).2 ↔ svcDelete = Except.ok ()) ∧
    (∀ e, svcDelete = Except.error e →
      (TempNginx.Delete svcDelete podDelete).1 = Except.error e) := by
  rcases svcDelete with e | u
  · refine ⟨rfl, ?_, ?_⟩
    · simp [TempNginx.Delete]
    · intro e' he
      cases he
      rfl
  · cases u
    rcases podDelete with e | u'
    · exact ⟨rfl, by simp [TempNginx.Delete], by intro e' he; cases he⟩
    · cases u'
      exact ⟨rfl, by simp [TempNginx.Delete], by intro e' he; cases he⟩

theorem tempNginx_delete_order_witness :
    (TempNginx.Delete (Except.error "x") (Except.ok ())).1 = Except.error "x" :=
  (tempNginx_delete_order (Except.error "x") (Except.ok ())).2.2 "x" rfl

/-- Claim C4: on an empty template, `Fulfill` sets kind to "BuildJob",
language kind to "Dockerfile", registry target to the target image, push to
true, context kind to "HTTP", context URL to the context URL, and assigns a
non-empty name that is unique across invocations (distinct clock readings
yield distinct names); the API version, kind, name and language-kind
defaults are applied only when the corresponding field is unset. -/
theorem fulfill_empty_template (imageName httpContextURL : String)
    (now : Nat) (randID : List Char) :
    ((fulfillV1Alpha1 emptyBuildJob imageName httpContextURL now randID).kind = "BuildJob" ∧
     (fulfillV1Alpha1 emptyBuildJob imageName httpContextURL now randID).apiVersion =
       cbiSchemeGroupVersion ∧
     (fulfillV1Alpha1 emptyBuildJob imageName httpContextURL now randID).spec.language.kind =
       languageKindDockerfile ∧
     (fulfillV1Alpha1 emptyBuildJob imageName httpContextURL now randID).spec.registry.target =
       imageName ∧
     (fulfillV1Alpha1 emptyBuildJob imageName httpContextURL now randID).spec.registry.push =
       true ∧
     (fulfillV1Alpha1 emptyBuildJob imageName httpContextURL now randID).spec.context.kind =
       contextKindHTTP ∧
     (fulfillV1Alpha1 emptyBuildJob imageName httpContextURL now randID).spec.context.http.url =
       httpContextURL ∧
     (fulfillV1Alpha1 emptyBuildJob imageName httpContextURL now randID).objectMeta.name ≠ "") ∧
    (∀ (n₁ n₂ : Nat) (r₁ r₂ : List Char), r₁ ≠ [] → r₂ ≠ [] → n₁ ≠ n₂ →
      (fulfillV1Alpha1 emptyBuildJob imageName httpContextURL n₁ r₁).objectMeta.name ≠
        (fulfillV1Alpha1 emptyBuildJob imageName httpContextURL n₂ r₂).objectMeta.name) ∧
    (∀ bj : BuildJob,
      (bj.apiVersion ≠ "" →
        (fulfillV1Alpha1 bj imageName httpContextURL now randID).apiVersion = bj.apiVersion) ∧
      (bj.kind ≠ "" →
        (fulfillV1Alpha1 bj imageName httpContextURL now randID).kind = bj.kind) ∧
      (bj.objectMeta.name ≠ "" →
        (fulfillV1Alpha1 bj imageName httpContextURL now randID).objectMeta.name =
          bj.objectMeta.name) ∧
      (bj.spec.language.kind ≠ "" →
        (fulfillV1Alpha1 bj imageName httpContextURL now randID).spec.language.kind =
          bj.spec.language.kind)) := by
  refine ⟨?_, ?_, ?_⟩
  · rw [fulfillV1Alpha1_eq]
    refine ⟨rfl, rfl, rfl, rfl, rfl, rfl, rfl, ?_⟩
    simpa [emptyBuildJob] using generatedBuildJobName_ne_empty now randID
  · intro n₁ n₂ r₁ r₂ h₁ h₂ hn h
    rw [fulfillV1Alpha1_eq, fulfillV1Alpha1_eq] at h
    simp only [emptyBuildJob, if_pos rfl] at h
    exact hn (generatedBuildJobName_inj h₁ h₂ h)
  · intro bj
    refine ⟨?_, ?_, ?_, ?_⟩ <;> intro hne <;> rw [fulfillV1Alpha1_eq] <;>
      simp [if_neg hne]

theorem fulfill_empty_template_witness :
    (fulfillV1Alpha1 emptyBuildJob "myapp:abc123" "http://svc/x.tar.gz" 1 ['a']).objectMeta.name ≠
      (fulfillV1Alpha1 emptyBuildJob "myapp:abc123" "http://svc/x.tar.gz" 2 ['b']).objectMeta.name :=
  (fulfill_empty_template "myapp:abc123" "http://svc/x.tar.gz" 1 ['a']).2.1 1 2 ['a'] ['b']
    (by decide) (by decide) (by decide)

/-- Claim C10: with no string-keyed "apiVersion" entry the scan falls
through to the v1alpha1 case and (unmarshalling permitting) returns a
v1alpha1 template whose `APIVersion()` is the v1alpha1 version string; a
string value equal to that version is accepted; any other string value is
rejected with an error; a non-string value is rejected with an error. -/
theorem getBuildJobTemplate_version_check (marshal : MapSlice → Except String String)
    (unmarshalStrict : String → Except String BuildJob) :
    (∀ (m : MapSlice) (b : String) (bj : BuildJob), noAPIVersionKey m →
      marshal m = .ok b → unmarshalStrict b = .ok bj →
      GetBuildJobTemplate marshal unmarshalStrict m = .ok { bj := bj } ∧
      CBIBuildJobTemplateV1Alpha1.APIVersion { bj := bj } = cbiSchemeGroupVersion) ∧
    (∀ (pre rest : MapSlice) (b : String) (bj : BuildJob), noAPIVersionKey pre →
      marshal (pre ++ (YamlVal.str "apiVersion", YamlVal.str cbiSchemeGroupVersion) :: rest) =
        .ok b →
      unmarshalStrict b = .ok bj →
      GetBuildJobTemplate marshal unmarshalStrict
        (pre ++ (YamlVal.str "apiVersion", YamlVal.str cbiSchemeGroupVersion) :: rest) =
        .ok { bj := bj }) ∧
    (∀ (pre rest : MapSlice) (w b : String), noAPIVersionKey pre →
      w ≠ cbiSchemeGroupVersion →
      marshal (pre ++ (YamlVal.str "apiVersion", YamlVal.str w) :: rest) = .ok b →
      GetBuildJobTemplate marshal unmarshalStrict
        (pre ++ (YamlVal.str "apiVersion", YamlVal.str w) :: rest) =
        .error ("expected " ++ quoted cbiSchemeGroupVersion ++ ", got " ++ quoted w)) ∧
    (∀ (pre rest : MapSlice) (b : String), noAPIVersionKey pre →
      marshal (pre ++ (YamlVal.str "apiVersion", YamlVal.nonstr) :: rest) = .ok b →
      GetBuildJobTemplate marshal unmarshalStrict
        (pre ++ (YamlVal.str "apiVersion", YamlVal.nonstr) :: rest) =
        .error "got non-string apiVersion: ") := by
  refine ⟨?_, ?_, ?_, ?_⟩
  · intro m b bj hkey hm hu
    have hscan : scanBuildJobAPIVersion m = .ok () := by
      have := scanBuildJobAPIVersion_append hkey []
      simpa using this
    refine ⟨?_, rfl⟩
    unfold GetBuildJobTemplate
    simp [hm, hscan, hu]
  · intro pre rest b bj hkey hm hu
    have hscan : scanBuildJobAPIVersion
        (pre ++ (YamlVal.str "apiVersion", YamlVal.str cbiSchemeGroupVersion) :: rest) =
        .ok () := by
      rw [scanBuildJobAPIVersion_append hkey]
      simp [scanBuildJobAPIVersion]
    unfold GetBuildJobTemplate
    simp [hm, hscan, hu]
  · intro pre rest w b hkey hw hm
    have hscan : scanBuildJobAPIVersion
        (pre ++ (YamlVal.str "apiVersion", YamlVal.str w) :: rest) =
        .error ("expected " ++ quoted cbiSchemeGroupVersion ++ ", got " ++ quoted w) := by
      rw [scanBuildJobAPIVersion_append hkey]
      simp [scanBuildJobAPIVersion, hw]
    unfold GetBuildJobTemplate
    simp [hm, hscan]
  · intro pre rest b hkey hm
    have hscan : scanBuildJobAPIVersion
        (pre ++ (YamlVal.str "apiVersion", YamlVal.nonstr) :: rest) =
        .error "got non-string apiVersion: " := by
      rw [scanBuildJobAPIVersion_append hkey]
      simp [scanBuildJobAPIVersion]
    unfold GetBuildJobTemplate
    simp [hm, hscan]

theorem getBuildJobTemplate_version_check_witness :
    GetBuildJobTemplate (fun _ => Except.ok "") (fun _ => Except.ok emptyBuildJob)
      [(YamlVal.str "kind", YamlVal.str "BuildJob")] = Except.ok { bj := emptyBuildJob } :=
  ((getBuildJobTemplate_version_check (fun _ => Except.ok "")
    (fun _ => Except.ok emptyBuildJob)).1
      [(YamlVal.str "kind", YamlVal.str "BuildJob")] "" emptyBuildJob
      (by intro kv hkv; simp at hkv; subst hkv; simp) rfl rfl).1

/-- Claim C5: the completion poll resolves success exactly when a fetched
status has its completion timestamp set with zero failures; a completion
timestamp with one or more failures resolves failure with the final status
snapshot embedded in the error; and statuses that never show a completion
timestamp within the 60-minute ceiling (at 500 ms per poll) resolve the
wait package's timeout error. -/
theorem waitJobCompletion_resolution (jobName : String) :
    (∀ (fetch : Nat → Except String JobStatus) (j : Nat) (s : JobStatus),
      j < completionMaxPolls →
      (∀ i < j, ∃ s', fetch i = .ok s' ∧ s'.completionTime = none) →
      fetch j = .ok s → s.completionTime.isSome →
      ((s.failed = 0 → waitJobCompletion jobName fetch = .ok ()) ∧
       (s.failed ≠ 0 →
         waitJobCompletion jobName fetch =
           .error ("job failed: " ++ jobStatusString s)))) ∧
    (∀ fetch : Nat → Except String JobStatus, waitJobCompletion jobName fetch = .ok () →
      ∃ j, j < completionMaxPolls ∧
        ∃ s, fetch j = .ok s ∧ s.completionTime.isSome ∧ s.failed = 0) ∧
    (∀ fetch : Nat → Except String JobStatus,
      (∀ i < completionMaxPolls, ∃ s, fetch i = .ok s ∧ s.completionTime = none) →
      waitJobCompletion jobName fetch = .error errWaitTimeout) := by
  refine ⟨?_, ?_, ?_⟩
  · intro fetch j s hj hprev hfetch hsome
    obtain ⟨t, ht⟩ := Option.isSome_iff_exists.mp hsome
    have hfalse : ∀ m < j, jobCompletionCond jobName fetch (0 + m) = .ok false := by
      intro m hm
      obtain ⟨s', hf, hn⟩ := hprev m hm
      simp [jobCompletionCond, Nat.zero_add, hf, hn]
    constructor
    · intro hz
      have hcond : jobCompletionCond jobName fetch (0 + j) = .ok true := by
        simp [jobCompletionCond, Nat.zero_add, hfetch, ht, hz]
      exact pollImmediate_first_true _ j 0 completionMaxPolls hj hfalse hcond
    · intro hnz
      have hcond : jobCompletionCond jobName fetch (0 + j) =
          .error ("job failed: " ++ jobStatusString s) := by
        simp [jobCompletionCond, Nat.zero_add, hfetch, ht, hnz]
      exact pollImmediate_first_error _ j 0 completionMaxPolls _ hj hfalse hcond
  · intro fetch hok
    obtain ⟨k, hk, hcond, -⟩ :=
      (pollImmediate_ok_iff (jobCompletionCond jobName fetch) completionMaxPolls 0).mp hok
    rw [Nat.zero_add] at hcond
    rcases hf : fetch k with e | s
    · rw [jobCompletionCond, hf] at hcond
      simp at hcond
    · rcases hct : s.completionTime with - | t
      · simp [jobCompletionCond, hf, hct] at hcond
      · by_cases hz : s.failed = 0
        · exact ⟨k, hk, s, hf, by simp [hct], hz⟩
        · simp [jobCompletionCond, hf, hct, hz] at hcond
  · intro fetch hnever
    have hfalse : ∀ m < completionMaxPolls,
        jobCompletionCond jobName fetch (0 + m) = .ok false := by
      intro m hm
      obtain ⟨s, hf, hn⟩ := hnever m hm
      simp [jobCompletionCond, Nat.zero_add, hf, hn]
    exact pollImmediate_timeout _ completionMaxPolls 0 hfalse

theorem waitJobCompletion_resolution_witness :
    waitJobCompletion "job" (fun _ => .ok { completionTime := some 0, failed := 0 }) =
      .ok () :=
  (((waitJobCompletion_resolution "job").1 (fun _ => .ok { completionTime := some 0, failed := 0 })
    0 { completionTime := some 0, failed := 0 } (by decide)
    (fun i hi => absurd hi (Nat.not_lt_zero i)) rfl rfl).1) rfl

/-- Claim C6: the readiness poll proceeds as soon as a fetched
`Status.Job` reference is non-empty; one fetch error during the loop
immediately resolves the whole wait with the `not found` error — the
result is already determined by the polls up to the failing one, so no
later fetch is retried within the call; and a reference that stays empty
for the whole 3-minute ceiling (at 500 ms per poll) resolves the wait
package's timeout error. -/
theorem readiness_loop_resolution (bjName : String) :
    (∀ (fetch : Nat → Except String String) (j : Nat) (s : String),
      j < readinessMaxPolls → (∀ i < j, fetch i = .ok "") → fetch j = .ok s → s ≠ "" →
      waitBuildJobReady bjName fetch = .ok ()) ∧
    (∀ (fetch fetch' : Nat → Except String String) (j : Nat) (e : String),
      j < readinessMaxPolls → (∀ i < j, fetch i = .ok "") → fetch j = .error e →
      (∀ i ≤ j, fetch' i = fetch i) →
      waitBuildJobReady bjName fetch' = .error ("not found: " ++ bjName)) ∧
    (∀ fetch : Nat → Except String String,
      (∀ i < readinessMaxPolls, fetch i = .ok "") →
      waitBuildJobReady bjName fetch = .error errWaitTimeout) := by
  refine ⟨?_, ?_, ?_⟩
  · intro fetch j s hj hprev hfetch hs
    have hfalse : ∀ m < j, buildJobReadyCond bjName fetch (0 + m) = .ok false := by
      intro m hm
      simp [buildJobReadyCond, Nat.zero_add, hprev m hm]
    have hcond : buildJobReadyCond bjName fetch (0 + j) = .ok true := by
      simp [buildJobReadyCond, Nat.zero_add, hfetch, hs]
    exact pollImmediate_first_true _ j 0 readinessMaxPolls hj hfalse hcond
  · intro fetch fetch' j e hj hprev hfetch hagree
    have hfalse : ∀ m < j, buildJobReadyCond bjName fetch' (0 + m) = .ok false := by
      intro m hm
      rw [Nat.zero_add]
      simp [buildJobReadyCond, hagree m (by omega), hprev m hm]
    have hcond : buildJobReadyCond bjName fetch' (0 + j) =
        .error ("not found: " ++ bjName) := by
      rw [Nat.zero_add]
      simp [buildJobReadyCond, hagree j (by omega), hfetch]
    exact pollImmediate_first_error _ j 0 readinessMaxPolls _ hj hfalse hcond
  · intro fetch hnever
    have hfalse : ∀ m < readinessMaxPolls,
        buildJobReadyCond bjName fetch (0 + m) = .ok false := by
      intro m hm
      simp [buildJobReadyCond, Nat.zero_add, hnever m hm]
    exact pollImmediate_timeout _ readinessMaxPolls 0 hfalse

theorem readiness_loop_resolution_witness :
    waitBuildJobReady "bj" (fun _ => .ok "job-1") = .ok () :=
  (readiness_loop_resolution "bj").1 (fun _ => .ok "job-1") 0 "job-1" (by decide)
    (fun i hi => absurd hi (Nat.not_lt_zero i)) rfl (by decide)

/-- Claim C1: once the staging-resource handle is constructed (the version
check and Kubernetes client creation are the only steps before it),
`RunCBIBuild` emits exactly one staging-teardown invocation on every path —
success as well as packaging, upload, submission and monitoring failures —
because `TempNginx.Delete` is deferred right after `NewTempNginx` and is
called nowhere else. -/
theorem staging_delete_exactly_once (env : RunEnv)
    (hv : env.templateAPIVersion = cbiSchemeGroupVersion)
    (hc : env.newK8sClient = .ok ()) :
    (RunCBIBuild env).2.countP CBIEvent.isNginxDelete = 1 := by
  unfold RunCBIBuild
  rw [if_pos hv, hc]
  simp [List.countP_append, List.countP_cons, CBIEvent.isNginxDelete,
    runCBIBuildBody_no_nginxDelete env]

theorem staging_delete_exactly_once_witness :
    (RunCBIBuild
      { templateAPIVersion := cbiSchemeGroupVersion
        newK8sClient := .ok ()
        tempFile := .ok ()
        nginxCreate := .ok ()
        packageContext := .ok ()
        copyContext := .error "uploading"
        fulfill := .ok ()
        buildJobIsV1Alpha1 := true
        newCBIClient := .ok ()
        inner :=
          { createBuildJob := .ok ()
            bjName := "bj"
            readyFetch := fun _ => .ok "job"
            startLog := .ok ()
            jobName := "job"
            completionFetch := fun _ => .ok { completionTime := some 1, failed := 0 } }
        imageName := "img"
        initialTag := "tag"
        deleteNginx := .ok () }).2.countP CBIEvent.isNginxDelete = 1 :=
  staging_delete_exactly_once _ rfl rfl

/-- Helper for C7: the body of `RunCBIBuild` never reads the teardown's
result. -/
theorem runCBIBuildBody_deleteNginx_irrelevant (env : RunEnv) (d : Except String Unit) :
    runCBIBuildBody { env with deleteNginx := d } = runCBIBuildBody env := by
  cases env
  rfl

/-- Claim C7: the result returned by `TempNginx.Delete` in the deferred
teardown never replaces or hides the build's primary result — the returned
value of `RunCBIBuild` is the same whatever the teardown returns, a build
whose body succeeded returns its image reference, and a build whose body
failed returns that step's error. -/
theorem delete_error_not_primary :
    (∀ (env : RunEnv) (d₁ d₂ : Except String Unit),
      (RunCBIBuild { env with deleteNginx := d₁ }).1 =
        (RunCBIBuild { env with deleteNginx := d₂ }).1) ∧
    (∀ env : RunEnv, env.templateAPIVersion = cbiSchemeGroupVersion →
      env.newK8sClient = .ok () →
      (runCBIBuildBody env).1 = .ok (env.imageName ++ ":" ++ env.initialTag) →
      (RunCBIBuild env).1 = .ok (env.imageName ++ ":" ++ env.initialTag)) ∧
    (∀ (env : RunEnv) (e : String), env.templateAPIVersion = cbiSchemeGroupVersion →
      env.newK8sClient = .ok () → (runCBIBuildBody env).1 = .error e →
      (RunCBIBuild env).1 = .error e) := by
  refine ⟨?_, ?_, ?_⟩
  · intro env d₁ d₂
    obtain ⟨t, k, tf, nc, pc, cc, f, bv, ncc, inn, im, it, dn⟩ := env
    unfold RunCBIBuild
    by_cases hv : t = cbiSchemeGroupVersion
    · rw [if_pos hv, if_pos hv]
      rcases k with e | u <;> rfl
    · rw [if_neg hv, if_neg hv]
  · intro env hv hc hbody
    unfold RunCBIBuild
    rw [if_pos hv, hc]
    simpa using hbody
  · intro env e hv hc hbody
    unfold RunCBIBuild
    rw [if_pos hv, hc]
    simpa using hbody

theorem delete_error_not_primary_witness :
    (RunCBIBuild
      { templateAPIVersion := cbiSchemeGroupVersion
        newK8sClient := .ok ()
        tempFile := .ok ()
        nginxCreate := .ok ()
        packageContext := .ok ()
        copyContext := .ok ()
        fulfill := .ok ()
        buildJobIsV1Alpha1 := true
        newCBIClient := .ok ()
        inner :=
          { createBuildJob := .ok ()
            bjName := "bj"
            readyFetch := fun _ => .ok "job"
            startLog := .ok ()
            jobName := "job"
            completionFetch := fun _ => .ok { completionTime := some 1, failed := 0 } }
        imageName := "img"
        initialTag := "tag"
        deleteNginx := .error "teardown failed" }).1 = .ok "img:tag" :=
  delete_error_not_primary.2.1 _ rfl rfl rfl

/-- Claim C2: when an artifact's build fails — after any prefix of
artifacts whose four steps all succeed — `Build` returns a nil result with
the failing artifact's wrapped error, discards the entries already
accumulated for the earlier artifacts, and does not attempt the remaining
artifacts (the attempted-artifact trace ends at the failing one). -/
theorem build_stops_at_first_failure
    (pre : List (Artifact × ArtifactOutcome)) (a : Artifact) (o : ArtifactOutcome)
    (rest : List (Artifact × ArtifactOutcome)) (e : String)
    (hpre : ∀ p ∈ pre, artifactStepsSucceed p)
    (hfail : buildArtifact a o = .error e) :
    CBIBuilder.Build (.ok ()) (.ok ()) (pre ++ (a, o) :: rest) =
      ((none, some e), pre.map (fun p => p.1.imageName) ++ [a.imageName]) := by
  unfold CBIBuilder.Build
  exact buildLoop_first_failure a o rest e hfail pre [] hpre

theorem build_stops_at_first_failure_witness :
    CBIBuilder.Build (.ok ()) (.ok ())
      [(⟨"a1", "w1"⟩, ⟨.ok "t1", .ok "d1", .ok "tag1", .ok ()⟩),
       (⟨"a2", "w2"⟩, ⟨.error "boom", .ok "", .ok "", .ok ()⟩)] =
      ((none, some "running cbi build for a2: boom"), ["a1", "a2"]) :=
  build_stops_at_first_failure [(⟨"a1", "w1"⟩, ⟨.ok "t1", .ok "d1", .ok "tag1", .ok ()⟩)]
    ⟨"a2", "w2"⟩ ⟨.error "boom", .ok "", .ok "", .ok ()⟩ [] "running cbi build for a2: boom"
    (by
      intro p hp
      rw [List.mem_singleton] at hp
      subst hp
      exact ⟨_, rfl⟩)
    rfl

end Skaffold
